import Mathlib

/-!
Verification of the VTHAX25-2 service-marketplace backend.

This file shallowly embeds the pure logic of the repository:
* the booking status machine of `uber_like_booking_system.py`
  (`UberLikeBookingSystem.update_booking_status`),
* the two `PATCH /bookings/{booking_id}` handlers of `main.py`,
* the classifier, follow-up selector and provider matcher of
  `ai_integration.py`,
and proves the spec's claims about them.

Python dictionaries/table rows are modelled as association lists of
string keys, the remote `bookings` table as a list of rows, and Python
floats as exact rationals (all numeric literals in the source are
decimal and the operations are comparisons, division and `min`).
-/

namespace VTHAX

/-! ### Association-list model of Python dicts / table rows -/

/-- `d.get(key)` on a Python dict modelled as an association list:
the first binding of `key`, if any. -/
def lookupAssoc {β : Type} : List (String × β) → String → Option β
  | [], _ => none
  | (k, v) :: rest, key => if k = key then some v else lookupAssoc rest key

/-- `d[key] = val` on a Python dict / setting one column of a table row:
replaces the first binding of `key`, or appends a new one. -/
def setField : List (String × String) → String → String → List (String × String)
  | [], key, val => [(key, val)]
  | (k, v) :: rest, key, val =>
      if k = key then (k, val) :: rest else (k, v) :: setField rest key val

/-- `row.update(upd)`: apply every binding of the update dict in order. -/
def applyUpdate (fields : List (String × String)) : List (String × String) → List (String × String)
  | [] => fields
  | (k, v) :: rest => applyUpdate (setField fields k v) rest

/-- A row of the remote `bookings` table: the integer primary key plus the
remaining columns as string fields (the column `status` lives here). -/
structure Row where
  id : Nat
  fields : List (String × String)
deriving DecidableEq

/-! ### Booking status machine (`uber_like_booking_system.py`) -/

/-- `self.status_transitions` from `UberLikeBookingSystem.__init__`
(lines 26-33). -/
def status_transitions : List (String × List String) :=
  [("pending", ["accepted", "declined", "cancelled"]),
   ("accepted", ["in-progress", "cancelled"]),
   ("in-progress", ["completed", "cancelled"]),
   ("completed", []),
   ("declined", []),
   ("cancelled", [])]

/-- `self.status_transitions.get(current_status, [])`. -/
def allowedTransitions (current_status : String) : List String :=
  (lookupAssoc status_transitions current_status).getD []

/-- Python `str.title()` (ASCII behaviour): a letter is upper-cased when the
previous character is not a letter, lower-cased otherwise. -/
def pyTitleAux : Bool → List Char → List Char
  | _, [] => []
  | prevAlpha, c :: rest =>
      (if c.isAlpha then (if prevAlpha then c.toLower else c.toUpper) else c)
        :: pyTitleAux c.isAlpha rest

def pyTitle (s : String) : String := ⟨pyTitleAux false s.data⟩

/-- `UberLikeBookingSystem._get_status_display` (lines 264-274). -/
def status_display_map : List (String × String) :=
  [("pending", "Waiting for Provider"),
   ("accepted", "Provider Accepted"),
   ("in-progress", "Service in Progress"),
   ("completed", "Service Completed"),
   ("cancelled", "Cancelled"),
   ("declined", "Declined by Provider")]

def get_status_display (status : String) : String :=
  (lookupAssoc status_display_map status).getD (pyTitle status)

/-- The timestamp column added by the `if/elif` chain at lines 182-189:
`accepted_at`, `started_at`, `completed_at`, `cancelled_at`; no other
status (in particular not `declined`) adds a timestamp. -/
def timestampField (new_status : String) : Option String :=
  if new_status = "accepted" then some "accepted_at"
  else if new_status = "in-progress" then some "started_at"
  else if new_status = "completed" then some "completed_at"
  else if new_status = "cancelled" then some "cancelled_at"
  else none

/-- The `update_data` dict sent to the table update (lines 177-189):
`{"status": new_status}` plus the timestamp column, when there is one. -/
def updateData (new_status now : String) : List (String × String) :=
  match timestampField new_status with
  | some k => [("status", new_status), (k, now)]
  | none => [("status", new_status)]

/-- Result dict of `update_booking_status`. -/
structure UpdateResult where
  success : Bool
  message : String
  new_status : Option String
deriving DecidableEq

/-- `UberLikeBookingSystem.update_booking_status` (lines 159-207) acting on
the bookings table.  `booking.data[0]` is the first row matching the id;
a missing `status` column would raise a `KeyError` caught by the
`except` clause (modelled by the middle failure branch); the transition
check is `new_status not in self.status_transitions.get(current_status, [])`;
on success the update dict is applied to every row matching the id. -/
def update_booking_status (table : List Row) (booking_id : Nat)
    (new_status : String) (now : String) : UpdateResult × List Row :=
  match table.find? (fun r => r.id == booking_id) with
  | none => (⟨false, "Booking not found", none⟩, table)
  | some current_booking =>
      match lookupAssoc current_booking.fields "status" with
      | none => (⟨false, "Error updating booking: 'status'", none⟩, table)
      | some current_status =>
          if new_status ∈ allowedTransitions current_status then
            (⟨true, "Booking status updated to " ++ get_status_display new_status,
               some new_status⟩,
             table.map (fun r =>
               if r.id = booking_id then
                 Row.mk r.id (applyUpdate r.fields (updateData new_status now))
               else r))
          else
            (⟨false, "Cannot change status from " ++ current_status ++ " to " ++ new_status,
               none⟩, table)

/-! ### `PATCH /bookings/{booking_id}` handlers (`main.py`)

`main.py` registers two handlers on the same route.  The first
(lines 276-281) writes the requested status directly; the second
(lines 486-510) maps a requested `cancelled` onto a stored `completed`
and reports the original status back.  Neither consults the status
machine. -/

/-- Response of the first handler: `{"message", "booking": response.data}`
or an HTTP error. -/
inductive Resp1 where
  | ok (message : String) (booking : List Row)
  | err (code : Nat) (detail : String)
deriving DecidableEq

/-- Response of the second handler: `{"message", "booking": booking}`
or an HTTP error. -/
inductive Resp2 where
  | ok (message : String) (booking : Row)
  | err (code : Nat) (detail : String)
deriving DecidableEq

/-- First `update_booking` handler (main.py lines 276-281):
update `{"status": data.status}` on rows matching the id; 404 when the
update matched no row, else return the updated rows. -/
def update_booking_v1 (table : List Row) (booking_id : Nat) (status : String) :
    Resp1 × List Row :=
  let table2 := table.map (fun r =>
    if r.id = booking_id then Row.mk r.id (setField r.fields "status" status) else r)
  match table2.filter (fun r => r.id == booking_id) with
  | [] => (Resp1.err 404 "Booking not found or update failed", table2)
  | rs => (Resp1.ok ("Booking updated to " ++ status) rs, table2)

/-- Second `update_booking` handler (main.py lines 486-510):
`db_status` maps `cancelled` to `completed`; the update writes
`db_status`; `response.data[0]` is the first row matching the id and its
`status` entry is overwritten with the originally requested status before
being returned.  The 404 raised when no row matched is caught by the
surrounding `except` clause and re-raised as a 500. -/
def update_booking_v2 (table : List Row) (booking_id : Nat) (status : String) :
    Resp2 × List Row :=
  let db_status := if status = "cancelled" then "completed" else status
  let table2 := table.map (fun r =>
    if r.id = booking_id then Row.mk r.id (setField r.fields "status" db_status) else r)
  match table2.find? (fun r => r.id == booking_id) with
  | none => (Resp2.err 500 "Failed to update booking: 404: Booking not found", table2)
  | some booking =>
      (Resp2.ok "Booking updated successfully"
        (Row.mk booking.id (setField booking.fields "status" status)), table2)

/-! ### Classifier (`ai_integration.py`, `classify_service_request`) -/

/-- One entry of the `service_categories` dict (lines 54-85). -/
structure ServiceInfo where
  id : String
  name : String
  description : String
  keywords : List String
deriving DecidableEq

def service_categories : List ServiceInfo :=
  [⟨"home_cleaning", "Home Cleaning", "Professional house cleaning services",
    ["clean", "cleaning", "house", "home", "vacuum", "mop", "dust", "tidy", "organize"]⟩,
   ⟨"plumbing", "Plumbing", "Plumbing repairs and installations",
    ["plumber", "plumbing", "pipe", "leak", "faucet", "toilet", "drain", "water", "sink"]⟩,
   ⟨"electrical", "Electrical", "Electrical repairs and installations",
    ["electrician", "electrical", "wiring", "outlet", "switch", "light", "power", "circuit"]⟩,
   ⟨"appliance_repair", "Appliance Repair", "Home appliance repair services",
    ["repair", "fix", "appliance", "broken", "not working", "refrigerator", "washing machine", "ac"]⟩,
   ⟨"handyman", "Handyman", "General handyman services",
    ["handyman", "repair", "fix", "install", "mount", "assemble", "build", "maintenance"]⟩,
   ⟨"gardening", "Gardening", "Garden maintenance and landscaping",
    ["garden", "gardening", "landscaping", "lawn", "mow", "plant", "tree", "yard"]⟩]

/-- Python's `text.lower()` (character-wise lower-casing). -/
def pyLower (s : String) : String := ⟨s.data.map Char.toLower⟩

/-- Character-list prefix test (used to model Python's substring operator). -/
def isPrefixChars : List Char → List Char → Bool
  | [], _ => true
  | _ :: _, [] => false
  | a :: as, b :: bs => a == b && isPrefixChars as bs

/-- Character-list substring test. -/
def isSubChars (needle : List Char) : List Char → Bool
  | [] => isPrefixChars needle []
  | c :: rest => isPrefixChars needle (c :: rest) || isSubChars needle rest

/-- Python's `needle in haystack` on strings: substring containment. -/
def pyIn (needle haystack : String) : Bool := isSubChars needle.data haystack.data

/-- `score = sum(1 for keyword in service_info["keywords"] if keyword in text_lower)`
(line 93). -/
def scoreOf (text_lower : String) (info : ServiceInfo) : Nat :=
  info.keywords.countP (fun kw => pyIn kw text_lower)

/-- One step of the best-match loop (lines 92-96): replace the running
best exactly when the score strictly improves. -/
def bestStep (text_lower : String) (acc : Option ServiceInfo × Nat) (info : ServiceInfo) :
    Option ServiceInfo × Nat :=
  if acc.2 < scoreOf text_lower info then (some info, scoreOf text_lower info) else acc

/-- The best-match loop over the category table, in iteration order. -/
def bestFold (text_lower : String) : List ServiceInfo → Option ServiceInfo × Nat →
    Option ServiceInfo × Nat
  | [], acc => acc
  | info :: rest, acc => bestFold text_lower rest (bestStep text_lower acc info)

/-- The dict returned by `classify_service_request`.  Confidence is an
exact rational (`min(max_score / len(keywords), 1.0)` on line 102). -/
structure ClassifyResult where
  service_id : String
  service_name : String
  confidence : ℚ
  description : String
deriving DecidableEq

/-- `classify_service_request` (lines 48-115): lower-case the text, run the
scoring loop, and return either the best category's entry or the
"general" fallback with confidence 0.5. -/
def classify_service_request (text : String) : ClassifyResult :=
  match bestFold (pyLower text) service_categories (none, 0) with
  | (some info, max_score) =>
      ⟨info.id, info.name,
        min ((max_score : ℚ) / (info.keywords.length : ℚ)) 1,
        info.description⟩
  | (none, _) =>
      ⟨"general", "General Service", 1/2, "General service request"⟩

/-! ### Follow-up selector (`ai_integration.py`, `get_service_followups`) -/

/-- The `followup_questions` dict (lines 125-162). -/
def followup_questions : List (String × List String) :=
  [("home_cleaning",
    ["What type of cleaning do you need? (deep clean, regular clean, move-in/out)",
     "How many rooms need cleaning?",
     "Do you have any specific areas of concern?",
     "What's your preferred time for the service?"]),
   ("plumbing",
    ["What type of plumbing issue are you experiencing?",
     "Is this an emergency or can it wait?",
     "Have you tried any DIY solutions?",
     "When did the problem start?"]),
   ("electrical",
    ["What electrical work do you need?",
     "Is this related to new construction or existing wiring?",
     "Do you need permits for this work?",
     "What's your timeline for completion?"]),
   ("appliance_repair",
    ["What appliance needs repair?",
     "What's the make and model?",
     "What symptoms are you experiencing?",
     "How old is the appliance?"]),
   ("handyman",
    ["What specific tasks do you need help with?",
     "Do you have the necessary materials?",
     "What's your budget range?",
     "When do you need this completed?"]),
   ("gardening",
    ["What type of gardening work do you need?",
     "What's the size of your garden/yard?",
     "Do you have any specific plant preferences?",
     "How often do you need maintenance?"])]

/-- The default of `followup_questions.get(service_id, [...])` (lines 164-168). -/
def generic_questions : List String :=
  ["Can you provide more details about your request?",
   "What's your preferred timeline?",
   "Do you have any specific requirements?"]

structure FollowupResult where
  service_id : String
  questions : List String
  answers : List (String × String)
  next_step : String
deriving DecidableEq

/-- `get_service_followups` (lines 117-179); `answers` is the answers dict,
whose size drives `next_step`. -/
def get_service_followups (service_id : String) (answers : List (String × String)) :
    FollowupResult :=
  ⟨service_id,
   (lookupAssoc followup_questions service_id).getD generic_questions,
   answers,
   if 2 ≤ answers.length then "provider_matching" else "more_questions"⟩

/-! ### Provider matcher (`ai_integration.py`, `match_providers`) -/

/-- One entry of `mock_providers` (lines 190-221); ratings and coordinates
are exact rationals. -/
structure Provider where
  id : String
  name : String
  rating : ℚ
  price_range : String
  services : List String
  location : ℚ × ℚ
  availability : String
  experience : String
deriving DecidableEq

def provider1 : Provider :=
  ⟨"provider_1", "John's Cleaning Service", 4.8, "$50-100", ["home_cleaning"],
   (37.7749, -122.4194), "Available today", "5+ years"⟩

def provider2 : Provider :=
  ⟨"provider_2", "Quick Fix Plumbing", 4.6, "$75-150", ["plumbing"],
   (37.7849, -122.4094), "Available tomorrow", "10+ years"⟩

def provider3 : Provider :=
  ⟨"provider_3", "Spark Electric", 4.9, "$100-200", ["electrical"],
   (37.7649, -122.4294), "Available this week", "8+ years"⟩

def mock_providers : List Provider := [provider1, provider2, provider3]

/-- Insert into a descending-by-rating list, after any earlier element of
equal rating: the unique stable placement. -/
def insertByRating (p : Provider) : List Provider → List Provider
  | [] => [p]
  | q :: rest =>
      if q.rating ≤ p.rating then p :: q :: rest else q :: insertByRating p rest

/-- Stable descending-by-rating sort, modelling the stable
`matching_providers.sort(key=lambda x: x["rating"], reverse=True)`
(line 230). -/
def sortByRatingDesc : List Provider → List Provider
  | [] => []
  | p :: rest => insertByRating p (sortByRatingDesc rest)

structure MatchResult where
  service_id : String
  providers : List Provider
  total_matches : Nat
  spec : List (String × String)
  location : Option (ℚ × ℚ)
deriving DecidableEq

/-- `match_providers` (lines 181-242): filter `mock_providers` by
`service_id in p["services"]`, stable-sort descending by rating, return the
first five plus the count of all matches. -/
def match_providers (service_id : String) (spec : List (String × String))
    (location : Option (ℚ × ℚ)) : MatchResult :=
  let matching := mock_providers.filter (fun p => decide (service_id ∈ p.services))
  ⟨service_id, (sortByRatingDesc matching).take 5, matching.length, spec, location⟩

/-! ### Helper lemmas -/

theorem lookupAssoc_setField_self (l : List (String × String)) (k v : String) :
    lookupAssoc (setField l k v) k = some v := by
  induction l with
  | nil => simp [setField, lookupAssoc]
  | cons h t ih =>
      obtain ⟨k', v'⟩ := h
      by_cases hk : k' = k
      · subst hk; simp [setField, lookupAssoc]
      · simp [setField, lookupAssoc, hk, ih]

theorem lookupAssoc_setField_other (l : List (String × String)) (k v k' : String)
    (h : k' ≠ k) : lookupAssoc (setField l k v) k' = lookupAssoc l k' := by
  induction l with
  | nil => simp [setField, lookupAssoc, Ne.symm h]
  | cons p t ih =>
      obtain ⟨k₀, v₀⟩ := p
      by_cases hk : k₀ = k
      · subst hk
        simp [setField, lookupAssoc, Ne.symm h]
      · simp [setField, lookupAssoc, hk, ih]

theorem find?_map_pres (l : List Row) (f : Row → Row) (p : Row → Bool)
    (hp : ∀ r, p (f r) = p r) : (l.map f).find? p = (l.find? p).map f := by
  induction l with
  | nil => rfl
  | cons a t ih =>
      by_cases h : p a
      · simp [List.find?_cons, hp a, h]
      · simp only [List.map_cons, List.find?_cons, hp a]
        simp only [Bool.not_eq_true] at h
        simp [h, ih]

theorem filter_map_pres (l : List Row) (f : Row → Row) (p : Row → Bool)
    (hp : ∀ r, p (f r) = p r) : (l.map f).filter p = (l.filter p).map f := by
  induction l with
  | nil => rfl
  | cons a t ih =>
      by_cases h : p a
      · simp [List.filter_cons, hp a, h, ih]
      · simp only [Bool.not_eq_true] at h
        simp [List.filter_cons, hp a, h, ih]

theorem string_append_ne_empty (a b : String) (h : a ≠ "") : a ++ b ≠ "" := by
  intro hc
  apply h
  apply String.ext
  have hd := congrArg String.data hc
  rw [String.data_append] at hd
  simpa using (List.append_eq_nil.mp hd).1

theorem timestampField_ne_status (ns k : String) (h : timestampField ns = some k) :
    k ≠ "status" := by
  unfold timestampField at h
  split_ifs at h <;> simp_all <;> subst h <;> decide

theorem lookupAssoc_applyUpdate_status (fields : List (String × String)) (ns now : String) :
    lookupAssoc (applyUpdate fields (updateData ns now)) "status" = some ns := by
  rcases hts : timestampField ns with _ | k
  · simp [updateData, hts, applyUpdate, lookupAssoc_setField_self]
  · have hk : k ≠ "status" := timestampField_ne_status ns k hts
    simp [updateData, hts, applyUpdate,
      lookupAssoc_setField_other _ k now "status" (fun hc => hk hc.symm),
      lookupAssoc_setField_self]

theorem lookupAssoc_applyUpdate_ts (fields : List (String × String)) (ns now k : String)
    (h : timestampField ns = some k) :
    lookupAssoc (applyUpdate fields (updateData ns now)) k = some now := by
  simp [updateData, h, applyUpdate, lookupAssoc_setField_self]

theorem lookupAssoc_applyUpdate_other (fields : List (String × String)) (ns now k : String)
    (hk : k ≠ "status") (hk2 : timestampField ns ≠ some k) :
    lookupAssoc (applyUpdate fields (updateData ns now)) k = lookupAssoc fields k := by
  rcases hts : timestampField ns with _ | k'
  · simp [updateData, hts, applyUpdate, lookupAssoc_setField_other _ _ _ _ hk]
  · have hkk' : k ≠ k' := fun hc => hk2 (hc ▸ hts)
    simp [updateData, hts, applyUpdate,
      lookupAssoc_setField_other _ k' now k hkk',
      lookupAssoc_setField_other _ _ _ _ hk]

/-! ### Claims about the booking status machine -/

/-- C1: `update_booking_status` succeeds iff the requested status appears in
the transition-table row for the booking's current status, and an illegal
request is rejected with the descriptive reason. -/
theorem c1_transition_iff (table : List Row) (bid : Nat) (ns now : String)
    (r : Row) (st : String)
    (hfind : table.find? (fun x => x.id == bid) = some r)
    (hst : lookupAssoc r.fields "status" = some st) :
    ((update_booking_status table bid ns now).1.success = true
       ↔ ns ∈ allowedTransitions st) ∧
    (ns ∉ allowedTransitions st →
      (update_booking_status table bid ns now).1.message
        = "Cannot change status from " ++ st ++ " to " ++ ns) := by
  by_cases hmem : ns ∈ allowedTransitions st <;>
    simp [update_booking_status, hfind, hst, hmem]

/-- Witness for C1: the booking `1` is `pending` and the request `completed`
is rejected (`pending -> completed` skips intermediate states). -/
theorem c1_witness :
    (((update_booking_status [Row.mk 1 [("status", "pending")]] 1 "completed" "T").1.success = true
        ↔ "completed" ∈ allowedTransitions "pending") ∧
      ("completed" ∉ allowedTransitions "pending" →
        (update_booking_status [Row.mk 1 [("status", "pending")]] 1 "completed" "T").1.message
          = "Cannot change status from " ++ "pending" ++ " to " ++ "completed")) :=
  c1_transition_iff [Row.mk 1 [("status", "pending")]] 1 "completed" "T"
    (Row.mk 1 [("status", "pending")]) "pending" (by decide) (by decide)

/-- C10: whenever `update_booking_status` rejects (no row matches the id, or
the requested status is not in the allowed set of the current status —
unknown current statuses defaulting to the empty set), the table is left
unchanged and the result is a failure with a nonempty message. -/
theorem c10_reject_no_write (table : List Row) (bid : Nat) (ns now : String)
    (h : table.find? (fun x => x.id == bid) = none ∨
      ∃ r st, table.find? (fun x => x.id == bid) = some r ∧
        lookupAssoc r.fields "status" = some st ∧ ns ∉ allowedTransitions st) :
    (update_booking_status table bid ns now).1.success = false ∧
    (update_booking_status table bid ns now).2 = table ∧
    (update_booking_status table bid ns now).1.message ≠ "" := by
  rcases h with h | ⟨r, st, hfind, hst, hmem⟩
  · refine ⟨?_, ?_, ?_⟩ <;> simp [update_booking_status, h]
  · refine ⟨?_, ?_, ?_⟩ <;> simp [update_booking_status, hfind, hst, hmem]
    exact string_append_ne_empty _ ns
      (string_append_ne_empty _ " to "
        (string_append_ne_empty "Cannot change status from " st (by decide)))

/-- Witness for C10: an id matching no row leaves the (empty) table
untouched and fails with a message. -/
theorem c10_witness :
    (update_booking_status [] 5 "accepted" "T").1.success = false ∧
    (update_booking_status [] 5 "accepted" "T").2 = ([] : List Row) ∧
    (update_booking_status [] 5 "accepted" "T").1.message ≠ "" :=
  c10_reject_no_write [] 5 "accepted" "T" (Or.inl (by decide))

/-! ### Claims about the `PATCH /bookings/{booking_id}` handlers -/

/-- C3: when the update handler of main.py lines 486-510 receives
`cancelled`, it stores `completed` in the status column, yet the booking in
the response carries status `cancelled`; for every other requested status
the stored value equals the requested one. -/
theorem c3_cancelled_shim (table : List Row) (bid : Nat) (status : String) (r : Row)
    (hfind : table.find? (fun x => x.id == bid) = some r) :
    (∀ r', (update_booking_v2 table bid status).2.find? (fun x => x.id == bid) = some r' →
        lookupAssoc r'.fields "status"
          = some (if status = "cancelled" then "completed" else status)) ∧
    (∃ b, (update_booking_v2 table bid status).1 = Resp2.ok "Booking updated successfully" b ∧
        lookupAssoc b.fields "status" = some status) := by
  have hr : r.id = bid := by simpa using List.find?_some hfind
  have hp : ∀ x : Row, (((if x.id = bid then
      Row.mk x.id (setField x.fields "status"
        (if status = "cancelled" then "completed" else status)) else x)).id == bid)
      = (x.id == bid) := by
    intro x; by_cases hx : x.id = bid <;> simp [hx]
  have hfind2 : (table.map (fun x => if x.id = bid then
      Row.mk x.id (setField x.fields "status"
        (if status = "cancelled" then "completed" else status)) else x)).find?
      (fun x => x.id == bid)
      = some (Row.mk r.id (setField r.fields "status"
          (if status = "cancelled" then "completed" else status))) := by
    rw [find?_map_pres _ _ _ hp, hfind]
    simp [hr]
  have key : update_booking_v2 table bid status
      = (Resp2.ok "Booking updated successfully"
          (Row.mk r.id (setField (setField r.fields "status"
            (if status = "cancelled" then "completed" else status)) "status" status)),
         table.map (fun x => if x.id = bid then
           Row.mk x.id (setField x.fields "status"
             (if status = "cancelled" then "completed" else status)) else x)) := by
    simp [update_booking_v2, hfind2]
  rw [key]
  constructor
  · intro r' hr'
    rw [hfind2] at hr'
    cases hr'
    exact lookupAssoc_setField_self r.fields "status" _
  · exact ⟨_, rfl, lookupAssoc_setField_self _ "status" status⟩

/-- Witness for C3: a booking in `in-progress` requested to `cancelled`:
the stored status becomes `completed`, the returned one is `cancelled`. -/
theorem c3_witness :
    (∀ r', (update_booking_v2 [Row.mk 1 [("status", "in-progress")]] 1 "cancelled").2.find?
        (fun x => x.id == 1) = some r' →
      lookupAssoc r'.fields "status"
        = some (if "cancelled" = "cancelled" then "completed" else "cancelled")) ∧
    (∃ b, (update_booking_v2 [Row.mk 1 [("status", "in-progress")]] 1 "cancelled").1
        = Resp2.ok "Booking updated successfully" b ∧
      lookupAssoc b.fields "status" = some "cancelled") :=
  c3_cancelled_shim [Row.mk 1 [("status", "in-progress")]] 1 "cancelled"
    (Row.mk 1 [("status", "in-progress")]) (by decide)

/-- C2 counterexample: a booking whose current status is `completed` (a
terminal state of the transition table) is updated to `accepted` by the
endpoint handler with a success response and the illegal status is
written — no transition validation happens. -/
theorem c2_counterexample :
    "accepted" ∉ allowedTransitions "completed" ∧
    (update_booking_v2 [Row.mk 1 [("status", "completed")]] 1 "accepted").1
      = Resp2.ok "Booking updated successfully" (Row.mk 1 [("status", "accepted")]) ∧
    (update_booking_v2 [Row.mk 1 [("status", "completed")]] 1 "accepted").2
      = [Row.mk 1 [("status", "accepted")]] := by decide

/-- C2 amended: neither `PATCH /bookings/{booking_id}` handler in main.py
validates against the booking status machine; for any existing booking and
any requested status (legal or not) both handlers report success, and the
second stores the (cancel-mapped) requested status. -/
theorem c2_amended_no_gating (table : List Row) (bid : Nat) (status : String) (r : Row)
    (hfind : table.find? (fun x => x.id == bid) = some r) :
    (∃ b, (update_booking_v2 table bid status).1 = Resp2.ok "Booking updated successfully" b) ∧
    (∀ r', (update_booking_v2 table bid status).2.find? (fun x => x.id == bid) = some r' →
        lookupAssoc r'.fields "status"
          = some (if status = "cancelled" then "completed" else status)) ∧
    (∃ rs, (update_booking_v1 table bid status).1
        = Resp1.ok ("Booking updated to " ++ status) rs) := by
  obtain ⟨hstore, b, hb, _⟩ := c3_cancelled_shim table bid status r hfind
  refine ⟨⟨b, hb⟩, hstore, ?_⟩
  have hrmem : r ∈ table := List.mem_of_find?_eq_some hfind
  have hr : r.id = bid := by simpa using List.find?_some hfind
  have hrp : (r.id == bid) = true := by simp [hr]
  have hp : ∀ x : Row, (((if x.id = bid then
      Row.mk x.id (setField x.fields "status" status) else x)).id == bid)
      = (x.id == bid) := by
    intro x; by_cases hx : x.id = bid <;> simp [hx]
  have hmemf : r ∈ table.filter (fun x => x.id == bid) := List.mem_filter.mpr ⟨hrmem, hrp⟩
  rcases hfl : table.filter (fun x => x.id == bid) with _ | ⟨a, as⟩
  · rw [hfl] at hmemf; cases hmemf
  · have : (table.map (fun x => if x.id = bid then
        Row.mk x.id (setField x.fields "status" status) else x)).filter
        (fun x => x.id == bid)
        = (if a.id = bid then Row.mk a.id (setField a.fields "status" status) else a)
            :: as.map (fun x => if x.id = bid then
              Row.mk x.id (setField x.fields "status" status) else x) := by
      rw [filter_map_pres _ _ _ hp, hfl, List.map_cons]
    simp [update_booking_v1, this]

/-- Witness for C2 amended: the illegal `completed -> in-progress` request
succeeds on both handlers. -/
theorem c2_witness :
    (∃ b, (update_booking_v2 [Row.mk 1 [("status", "completed")]] 1 "in-progress").1
        = Resp2.ok "Booking updated successfully" b) ∧
    (∀ r', (update_booking_v2 [Row.mk 1 [("status", "completed")]] 1 "in-progress").2.find?
        (fun x => x.id == 1) = some r' →
      lookupAssoc r'.fields "status"
        = some (if "in-progress" = "cancelled" then "completed" else "in-progress")) ∧
    (∃ rs, (update_booking_v1 [Row.mk 1 [("status", "completed")]] 1 "in-progress").1
        = Resp1.ok ("Booking updated to " ++ "in-progress") rs) :=
  c2_amended_no_gating [Row.mk 1 [("status", "completed")]] 1 "in-progress"
    (Row.mk 1 [("status", "completed")]) (by decide)

/-! ### Claims about the update's write set (frame) -/

/-- C4 counterexample: `pending -> declined` is an accepted transition, but
its update writes only the status: no timestamp field is recorded for
`declined` (the `if/elif` chain has no `declined` branch). -/
theorem c4_counterexample :
    "declined" ∈ allowedTransitions "pending" ∧
    (update_booking_status [Row.mk 1 [("status", "pending")]] 1 "declined" "T").1.success = true ∧
    (update_booking_status [Row.mk 1 [("status", "pending")]] 1 "declined" "T").2
      = [Row.mk 1 [("status", "declined")]] ∧
    updateData "declined" "T" = [("status", "declined")] ∧
    timestampField "declined" = none := by decide

/-- C4 amended: on every accepted transition the update writes the new
status plus, precisely for `accepted`/`in-progress`/`completed`/`cancelled`,
the single mapped timestamp field (`accepted_at`/`started_at`/
`completed_at`/`cancelled_at`) — `declined` writes no timestamp; every
other field of the booking row and every other row is left unchanged. -/
theorem c4_frame (table : List Row) (bid : Nat) (ns now : String)
    (hsucc : (update_booking_status table bid ns now).1.success = true) :
    (timestampField "accepted" = some "accepted_at" ∧
     timestampField "in-progress" = some "started_at" ∧
     timestampField "completed" = some "completed_at" ∧
     timestampField "cancelled" = some "cancelled_at" ∧
     timestampField "declined" = none) ∧
    (update_booking_status table bid ns now).2.length = table.length ∧
    ∀ i (hi : i < table.length) (hi' : i < (update_booking_status table bid ns now).2.length),
      (table[i].id ≠ bid → (update_booking_status table bid ns now).2[i] = table[i]) ∧
      (table[i].id = bid →
        (update_booking_status table bid ns now).2[i].id = table[i].id ∧
        lookupAssoc (update_booking_status table bid ns now).2[i].fields "status" = some ns ∧
        (∀ k, timestampField ns = some k →
          lookupAssoc (update_booking_status table bid ns now).2[i].fields k = some now) ∧
        (∀ k, k ≠ "status" → timestampField ns ≠ some k →
          lookupAssoc (update_booking_status table bid ns now).2[i].fields k
            = lookupAssoc table[i].fields k)) := by
  rcases hfind : table.find? (fun x => x.id == bid) with _ | r
  · simp [update_booking_status, hfind] at hsucc
  rcases hst : lookupAssoc r.fields "status" with _ | st
  · simp [update_booking_status, hfind, hst] at hsucc
  by_cases hmem : ns ∈ allowedTransitions st
  case neg => simp [update_booking_status, hfind, hst, hmem] at hsucc
  have key : (update_booking_status table bid ns now).2
      = table.map (fun x => if x.id = bid then
          Row.mk x.id (applyUpdate x.fields (updateData ns now)) else x) := by
    simp [update_booking_status, hfind, hst, hmem]
  refine ⟨by decide, ?_, ?_⟩
  · rw [key, List.length_map]
  · intro i hi hi'
    have hget : (update_booking_status table bid ns now).2[i]
        = (fun x => if x.id = bid then
            Row.mk x.id (applyUpdate x.fields (updateData ns now)) else x) table[i] := by
      have hi2 : i < (table.map (fun x => if x.id = bid then
          Row.mk x.id (applyUpdate x.fields (updateData ns now)) else x)).length := by
        rw [List.length_map]; exact hi
      calc (update_booking_status table bid ns now).2[i]
          = (table.map (fun x => if x.id = bid then
              Row.mk x.id (applyUpdate x.fields (updateData ns now)) else x))[i] := by
            simp only [key]
        _ = _ := List.getElem_map _
    constructor
    · intro hne
      rw [hget]
      simp [hne]
    · intro heq
      rw [hget]
      simp only [heq, if_pos rfl]
      exact ⟨rfl, lookupAssoc_applyUpdate_status _ ns now,
        fun k hk => lookupAssoc_applyUpdate_ts _ ns now k hk,
        fun k hk hk2 => lookupAssoc_applyUpdate_other _ ns now k hk hk2⟩

/-- Witness for C4 amended: the accepted `pending -> accepted` transition at
a concrete one-row table. -/
theorem c4_witness :
    (timestampField "accepted" = some "accepted_at" ∧
     timestampField "in-progress" = some "started_at" ∧
     timestampField "completed" = some "completed_at" ∧
     timestampField "cancelled" = some "cancelled_at" ∧
     timestampField "declined" = none) ∧
    (update_booking_status [Row.mk 1 [("status", "pending"), ("customer_id", "c1")]]
        1 "accepted" "T").2.length
      = [Row.mk 1 [("status", "pending"), ("customer_id", "c1")]].length ∧
    ∀ i (hi : i < [Row.mk 1 [("status", "pending"), ("customer_id", "c1")]].length)
      (hi' : i < (update_booking_status [Row.mk 1 [("status", "pending"), ("customer_id", "c1")]]
        1 "accepted" "T").2.length),
      ([Row.mk 1 [("status", "pending"), ("customer_id", "c1")]][i].id ≠ 1 →
        (update_booking_status [Row.mk 1 [("status", "pending"), ("customer_id", "c1")]]
          1 "accepted" "T").2[i]
          = [Row.mk 1 [("status", "pending"), ("customer_id", "c1")]][i]) ∧
      ([Row.mk 1 [("status", "pending"), ("customer_id", "c1")]][i].id = 1 →
        (update_booking_status [Row.mk 1 [("status", "pending"), ("customer_id", "c1")]]
          1 "accepted" "T").2[i].id
          = [Row.mk 1 [("status", "pending"), ("customer_id", "c1")]][i].id ∧
        lookupAssoc (update_booking_status [Row.mk 1 [("status", "pending"), ("customer_id", "c1")]]
          1 "accepted" "T").2[i].fields "status" = some "accepted" ∧
        (∀ k, timestampField "accepted" = some k →
          lookupAssoc (update_booking_status [Row.mk 1 [("status", "pending"), ("customer_id", "c1")]]
            1 "accepted" "T").2[i].fields k = some "T") ∧
        (∀ k, k ≠ "status" → timestampField "accepted" ≠ some k →
          lookupAssoc (update_booking_status [Row.mk 1 [("status", "pending"), ("customer_id", "c1")]]
            1 "accepted" "T").2[i].fields k
            = lookupAssoc [Row.mk 1 [("status", "pending"), ("customer_id", "c1")]][i].fields k)) :=
  c4_frame [Row.mk 1 [("status", "pending"), ("customer_id", "c1")]] 1 "accepted" "T" (by decide)

/-! ### Classifier lemmas -/

/-- Characterization of the best-match loop: either no score exceeds the
accumulator and it is returned unchanged, or the result is the first
category of the list strictly beating both the accumulator and everything
before it, with no later category strictly exceeding it. -/
theorem bestFold_spec (tl : String) (l : List ServiceInfo) :
    ∀ acc : Option ServiceInfo × Nat,
      ((∀ j ∈ l, scoreOf tl j ≤ acc.2) ∧ bestFold tl l acc = acc) ∨
      (∃ l₁ i l₂, l = l₁ ++ i :: l₂ ∧
        bestFold tl l acc = (some i, scoreOf tl i) ∧
        acc.2 < scoreOf tl i ∧
        (∀ j ∈ l₁, scoreOf tl j < scoreOf tl i) ∧
        (∀ j ∈ l₂, scoreOf tl j ≤ scoreOf tl i)) := by
  induction l with
  | nil => intro acc; exact Or.inl ⟨by simp, rfl⟩
  | cons info rest ih =>
      intro acc
      by_cases hlt : acc.2 < scoreOf tl info
      · have hstep : bestFold tl (info :: rest) acc
            = bestFold tl rest (some info, scoreOf tl info) := by
          simp [bestFold, bestStep, hlt]
        rcases ih (some info, scoreOf tl info) with ⟨hall, heq⟩ |
          ⟨l₁, i, l₂, hsplit, heq, hpos, h₁, h₂⟩
        · refine Or.inr ⟨[], info, rest, by simp, ?_, hlt, by simp, fun j hj => hall j hj⟩
          rw [hstep, heq]
        · refine Or.inr ⟨info :: l₁, i, l₂, by rw [hsplit]; rfl, ?_, ?_, ?_, h₂⟩
          · rw [hstep, heq]
          · exact lt_trans hlt hpos
          · intro j hj
            rcases List.mem_cons.mp hj with hj | hj
            · subst hj; exact hpos
            · exact h₁ j hj
      · have hle : scoreOf tl info ≤ acc.2 := Nat.le_of_not_lt hlt
        have hstep : bestFold tl (info :: rest) acc = bestFold tl rest acc := by
          simp [bestFold, bestStep, hlt]
        rcases ih acc with ⟨hall, heq⟩ | ⟨l₁, i, l₂, hsplit, heq, hpos, h₁, h₂⟩
        · refine Or.inl ⟨?_, by rw [hstep, heq]⟩
          intro j hj
          rcases List.mem_cons.mp hj with hj | hj
          · subst hj; exact hle
          · exact hall j hj
        · refine Or.inr ⟨info :: l₁, i, l₂, by rw [hsplit]; rfl,
            by rw [hstep, heq], hpos, ?_, h₂⟩
          intro j hj
          rcases List.mem_cons.mp hj with hj | hj
          · subst hj; exact lt_of_le_of_lt hle hpos
          · exact h₁ j hj

/-- C5: the classifier's confidence always lies in [0,1]; a text containing
no keyword of any category (the empty text in particular) yields the
`general` fallback with confidence exactly 0.5. -/
theorem c5_confidence (text : String) :
    (0 ≤ (classify_service_request text).confidence ∧
      (classify_service_request text).confidence ≤ 1) ∧
    ((∀ info ∈ service_categories, ∀ kw ∈ info.keywords, pyIn kw (pyLower text) = false) →
      classify_service_request text
        = ⟨"general", "General Service", 1/2, "General service request"⟩) ∧
    classify_service_request ""
      = ⟨"general", "General Service", 1/2, "General service request"⟩ := by
  refine ⟨?_, ?_, rfl⟩
  · rcases hbm : bestFold (pyLower text) service_categories (none, 0) with ⟨o, s⟩
    cases o with
    | none =>
        have : classify_service_request text
            = ⟨"general", "General Service", 1/2, "General service request"⟩ := by
          simp [classify_service_request, hbm]
        rw [this]
        norm_num
    | some info =>
        have : (classify_service_request text).confidence
            = min ((s : ℚ) / (info.keywords.length : ℚ)) 1 := by
          simp [classify_service_request, hbm]
        rw [this]
        constructor
        · exact le_min (div_nonneg (Nat.cast_nonneg s) (Nat.cast_nonneg _)) (by norm_num)
        · exact min_le_right _ _
  · intro hfree
    have hzero : ∀ j ∈ service_categories, scoreOf (pyLower text) j = 0 := by
      intro j hj
      rw [scoreOf, List.countP_eq_zero]
      intro kw hkw
      simp [hfree j hj kw hkw]
    rcases bestFold_spec (pyLower text) service_categories (none, 0) with ⟨_, heq⟩ |
      ⟨l₁, i, l₂, hsplit, _, hpos, _, _⟩
    · simp [classify_service_request, heq]
    · have himem : i ∈ service_categories := by
        rw [hsplit]; exact List.mem_append_right _ (List.mem_cons_self i l₂)
      rw [hzero i himem] at hpos
      cases hpos

/-- Witness for C5: a keyword-free text classifies as `general`, 0.5. -/
theorem c5_witness :
    classify_service_request "qqq"
      = ⟨"general", "General Service", 1/2, "General service request"⟩ :=
  (c5_confidence "qqq").2.1 (by decide)

/-- C6: with at least one keyword match, the classifier returns the first
category (in insertion order of the taxonomy table) attaining the strictly
highest keyword-match count, with confidence = matches / keyword count,
capped at 1. -/
theorem c6_argmax (text : String)
    (hm : ∃ info ∈ service_categories, 0 < scoreOf (pyLower text) info) :
    ∃ l₁ info l₂, service_categories = l₁ ++ info :: l₂ ∧
      (∀ j ∈ l₁, scoreOf (pyLower text) j < scoreOf (pyLower text) info) ∧
      (∀ j ∈ l₂, scoreOf (pyLower text) j ≤ scoreOf (pyLower text) info) ∧
      classify_service_request text
        = ⟨info.id, info.name,
           min ((scoreOf (pyLower text) info : ℚ) / (info.keywords.length : ℚ)) 1,
           info.description⟩ := by
  rcases bestFold_spec (pyLower text) service_categories (none, 0) with ⟨hall, _⟩ |
    ⟨l₁, i, l₂, hsplit, heq, _, h₁, h₂⟩
  · obtain ⟨info, hmem, hpos⟩ := hm
    have := hall info hmem
    omega
  · exact ⟨l₁, i, l₂, hsplit, h₁, h₂, by simp [classify_service_request, heq]⟩

/-- Witness for C6: "clean" matches `home_cleaning` keywords and the
classifier returns the first maximal category. -/
theorem c6_witness :
    ∃ l₁ info l₂, service_categories = l₁ ++ info :: l₂ ∧
      (∀ j ∈ l₁, scoreOf (pyLower "clean") j < scoreOf (pyLower "clean") info) ∧
      (∀ j ∈ l₂, scoreOf (pyLower "clean") j ≤ scoreOf (pyLower "clean") info) ∧
      classify_service_request "clean"
        = ⟨info.id, info.name,
           min ((scoreOf (pyLower "clean") info : ℚ) / (info.keywords.length : ℚ)) 1,
           info.description⟩ :=
  c6_argmax "clean" (by decide)

/-! ### Follow-up selector -/

theorem lookupAssoc_eq_none {β : Type} (l : List (String × β)) (key : String)
    (h : key ∉ l.map Prod.fst) : lookupAssoc l key = none := by
  induction l with
  | nil => rfl
  | cons p t ih =>
      obtain ⟨k, v⟩ := p
      simp only [List.map_cons, List.mem_cons] at h
      push_neg at h
      simp [lookupAssoc, Ne.symm h.1, ih h.2]

/-- C9: the follow-up question list depends only on the category id (never
on the answers); an unknown category id yields the 3-question generic
fallback; next_step is provider_matching iff at least two answers. -/
theorem c9_followups (sid : String) (a1 a2 : List (String × String)) :
    ((get_service_followups sid a1).questions = (get_service_followups sid a2).questions) ∧
    (sid ∉ followup_questions.map Prod.fst →
      (get_service_followups sid a1).questions = generic_questions ∧
      generic_questions.length = 3) ∧
    ((get_service_followups sid a1).next_step
      = if 2 ≤ a1.length then "provider_matching" else "more_questions") := by
  refine ⟨rfl, ?_, rfl⟩
  intro hunk
  exact ⟨by simp [get_service_followups, lookupAssoc_eq_none _ _ hunk], rfl⟩

/-- Witness for C9: an unknown category with two answers. -/
theorem c9_witness :
    ((get_service_followups "roof_repair" [("q1", "a1"), ("q2", "a2")]).questions
      = (get_service_followups "roof_repair" []).questions) ∧
    ("roof_repair" ∉ followup_questions.map Prod.fst →
      (get_service_followups "roof_repair" [("q1", "a1"), ("q2", "a2")]).questions
        = generic_questions ∧
      generic_questions.length = 3) ∧
    ((get_service_followups "roof_repair" [("q1", "a1"), ("q2", "a2")]).next_step
      = if 2 ≤ [("q1", "a1"), ("q2", "a2")].length then "provider_matching"
        else "more_questions") :=
  c9_followups "roof_repair" [("q1", "a1"), ("q2", "a2")] []

/-! ### Provider matcher lemmas -/

theorem mem_insertByRating (p x : Provider) (l : List Provider) :
    x ∈ insertByRating p l ↔ x = p ∨ x ∈ l := by
  induction l with
  | nil => simp [insertByRating]
  | cons q rest ih =>
      by_cases h : q.rating ≤ p.rating
      · simp only [insertByRating, if_pos h]
        simp [or_comm, or_left_comm]
      · simp only [insertByRating, if_neg h]
        simp [ih]
        tauto

theorem mem_sortByRatingDesc (x : Provider) (l : List Provider) :
    x ∈ sortByRatingDesc l ↔ x ∈ l := by
  induction l with
  | nil => simp [sortByRatingDesc]
  | cons p rest ih => simp [sortByRatingDesc, mem_insertByRating, ih]

theorem pairwise_insertByRating (p : Provider) (l : List Provider)
    (hl : l.Pairwise (fun a b => b.rating ≤ a.rating)) :
    (insertByRating p l).Pairwise (fun a b => b.rating ≤ a.rating) := by
  induction l with
  | nil => simp [insertByRating]
  | cons q rest ih =>
      rcases List.pairwise_cons.mp hl with ⟨hq, hrest⟩
      by_cases h : q.rating ≤ p.rating
      · simp only [insertByRating, if_pos h]
        refine List.pairwise_cons.mpr ⟨?_, hl⟩
        intro b hb
        rcases List.mem_cons.mp hb with hb | hb
        · subst hb; exact h
        · exact le_trans (hq b hb) h
      · simp only [insertByRating, if_neg h]
        refine List.pairwise_cons.mpr ⟨?_, ih hrest⟩
        intro b hb
        rcases (mem_insertByRating p b rest).mp hb with hb | hb
        · subst hb; exact le_of_not_le h
        · exact hq b hb

theorem pairwise_sortByRatingDesc (l : List Provider) :
    (sortByRatingDesc l).Pairwise (fun a b => b.rating ≤ a.rating) := by
  induction l with
  | nil => simp [sortByRatingDesc]
  | cons p rest ih => exact pairwise_insertByRating p _ ih

theorem length_insertByRating (p : Provider) (l : List Provider) :
    (insertByRating p l).length = l.length + 1 := by
  induction l with
  | nil => rfl
  | cons q rest ih =>
      by_cases h : q.rating ≤ p.rating
      · simp [insertByRating, if_pos h]
      · simp [insertByRating, if_neg h, ih]

theorem length_sortByRatingDesc (l : List Provider) :
    (sortByRatingDesc l).length = l.length := by
  induction l with
  | nil => rfl
  | cons p rest ih => simp [sortByRatingDesc, length_insertByRating, ih]

/-- C7: the matcher never returns more than five providers, every returned
provider carries the requested service tag, and a service id matching no
provider yields the empty list with total_matches 0. -/
theorem c7_match (sid : String) (spec : List (String × String)) (loc : Option (ℚ × ℚ)) :
    (match_providers sid spec loc).providers.length ≤ 5 ∧
    (∀ p ∈ (match_providers sid spec loc).providers, sid ∈ p.services) ∧
    ((∀ p ∈ mock_providers, sid ∉ p.services) →
      (match_providers sid spec loc).providers = [] ∧
      (match_providers sid spec loc).total_matches = 0) := by
  refine ⟨?_, ?_, ?_⟩
  · simp only [match_providers]
    rw [List.length_take]
    exact min_le_left _ _
  · intro p hp
    simp only [match_providers] at hp
    have hp1 : p ∈ sortByRatingDesc
        (mock_providers.filter fun q => decide (sid ∈ q.services)) :=
      (List.take_sublist _ _).mem hp
    have hp2 := (mem_sortByRatingDesc _ _).mp hp1
    exact of_decide_eq_true (List.mem_filter.mp hp2).2
  · intro hnone
    have hfil : mock_providers.filter (fun q => decide (sid ∈ q.services)) = [] := by
      rw [List.filter_eq_nil_iff]
      intro a ha
      simp [hnone a ha]
    simp [match_providers, hfil, sortByRatingDesc]

/-- Witness for C7: no provider carries a `roofing` tag; the matcher
returns the empty list and zero matches. -/
theorem c7_witness :
    (match_providers "roofing" [] Option.none).providers = [] ∧
    (match_providers "roofing" [] Option.none).total_matches = 0 :=
  (c7_match "roofing" [] Option.none).2.2 (by decide)

/-- C8: the returned provider list is sorted by rating descending, and any
two equal-rated providers keep the relative order they have in the
underlying `mock_providers` list. -/
theorem c8_sorted_stable (sid : String) (spec : List (String × String))
    (loc : Option (ℚ × ℚ)) :
    ((match_providers sid spec loc).providers).Pairwise (fun a b => b.rating ≤ a.rating) ∧
    (∀ i j (hi : i < (match_providers sid spec loc).providers.length)
        (hj : j < (match_providers sid spec loc).providers.length), i < j →
      (match_providers sid spec loc).providers[i].rating
        = (match_providers sid spec loc).providers[j].rating →
      ∃ (a b : Nat) (ha : a < mock_providers.length) (hb : b < mock_providers.length), a < b ∧
        mock_providers[a] = (match_providers sid spec loc).providers[i] ∧
        mock_providers[b] = (match_providers sid spec loc).providers[j]) := by
  constructor
  · exact (pairwise_sortByRatingDesc _).sublist (List.take_sublist _ _)
  · have hfillen : (mock_providers.filter fun q => decide (sid ∈ q.services)).length ≤ 1 := by
      by_cases h1 : sid = "home_cleaning"
      · subst h1; decide
      · by_cases h2 : sid = "plumbing"
        · subst h2; decide
        · by_cases h3 : sid = "electrical"
          · subst h3; decide
          · have e1 : (decide (sid ∈ provider1.services)) = false := by
              simp only [provider1, List.mem_singleton, decide_eq_false_iff_not]
              exact h1
            have e2 : (decide (sid ∈ provider2.services)) = false := by
              simp only [provider2, List.mem_singleton, decide_eq_false_iff_not]
              exact h2
            have e3 : (decide (sid ∈ provider3.services)) = false := by
              simp only [provider3, List.mem_singleton, decide_eq_false_iff_not]
              exact h3
            simp [mock_providers, List.filter, e1, e2, e3]
    have hlen : (match_providers sid spec loc).providers.length ≤ 1 := by
      simp only [match_providers]
      rw [List.length_take, length_sortByRatingDesc]
      exact le_trans (min_le_right _ _) hfillen
    intro i j hi hj hij _
    exact absurd (lt_of_lt_of_le hj hlen) (by omega)

/-- Witness for C8: the `plumbing` result is sorted descending by rating. -/
theorem c8_witness :
    ((match_providers "plumbing" [] Option.none).providers).Pairwise
      (fun a b => b.rating ≤ a.rating) :=
  (c8_sorted_stable "plumbing" [] Option.none).1

end VTHAX
